import Mathlib

/-!
Verification of the erp-mcp-adapter gateway (src/server.js): a shallow
embedding of the upstream client retry loop, the Ajv-based argument
validator, the response normalizer and the tool dispatcher / RPC front
door, together with proofs of the specification claims.

Modelling conventions:
* JSON values are the inductive `Json`; a JS object field that is absent
  (`undefined`) is a missing key, while JS `null` is `Json.null`.
* JS exceptions are modelled by `Except JsError _`: `Except.error` is a
  thrown error object, `Except.ok` a normal return.
* The network is an oracle `upstream : Nat → FetchOutcome` giving the
  outcome of the fetch performed on each attempt number, and JSON.parse
  is an oracle `parse : String → Option Json` (`none` models a parse
  exception; note `JSON.parse ""` throws, so an empty body has
  `parse "" = none`).
-/

inductive Json where
  | null
  | bool (b : Bool)
  | num (n : Int)
  | str (s : String)
  | arr (xs : List Json)
  | obj (fields : List (String × Json))

/-- Is a JSON value the JS `null`?  (Used for `data ?? {}`.) -/
def jsIsNull (j : Json) : Bool :=
  match j with
  | .null => true
  | _ => false

/-- Field lookup in a JS object (first matching key); `none` models
`undefined`. -/
def lookupF (fs : List (String × Json)) (k : String) : Option Json :=
  match fs with
  | [] => none
  | (k2, v) :: rest => if k2 = k then some v else lookupF rest k

/-- Property read `j.k` where `j` is already known to be an object-like
value; non-objects have no own properties (reading from `null` is handled
separately where the source can throw). -/
def getF (j : Json) (k : String) : Option Json :=
  match j with
  | .obj fs => lookupF fs k
  | _ => none

/-- JS truthiness of a JSON value. -/
def jsTruthy (j : Json) : Bool :=
  match j with
  | .null => false
  | .bool b => b
  | .num n => n ≠ 0
  | .str s => s ≠ ""
  | .arr _ => true
  | .obj _ => true

/-- Optional-chaining navigation `j?.k1?.k2...`: `null`/`undefined` at any
step (and property reads on non-objects) yield `undefined` (`none`). -/
def jnav (j : Json) (path : List String) : Option Json :=
  match path with
  | [] => some j
  | k :: ks =>
    match j with
    | .obj fs =>
      match lookupF fs k with
      | some v => jnav v ks
      | none => none
    | _ => none

/-- Nullish coalescing `o ?? d`: both `undefined` and `null` fall back. -/
def coal (o : Option Json) (d : Json) : Json :=
  match o with
  | none => d
  | some .null => d
  | some v => v

def isNullish (o : Option Json) : Bool :=
  match o with
  | none => true
  | some .null => true
  | some _ => false

/-- A field of an object literal whose value may be `undefined`: JS object
serialization drops keys holding `undefined`, so the pair is omitted. -/
def optField (k : String) (o : Option Json) : List (String × Json) :=
  match o with
  | some v => [(k, v)]
  | none => []

/-- JS `v || null`: the value if truthy, else `null`. -/
def orNull (o : Option Json) : Json :=
  match o with
  | some v => if jsTruthy v then v else .null
  | none => .null

/-- Read `n?.k`: optional-chained property read (no throw on `null`). -/
def jsGetOpt (n : Json) (k : String) : Option Json :=
  match n with
  | .obj fs => lookupF fs k
  | _ => none

/-- JS `String()` of a primitive (arrays/objects handled one level up). -/
def jsAtomStr (j : Json) : String :=
  match j with
  | .null => "null"
  | .bool b => if b then "true" else "false"
  | .num n => toString n
  | .str s => s
  | .arr _ => ""
  | .obj _ => "[object Object]"

/-- JS `Array.prototype.join(sep)` element conversion: `null` and
`undefined` become the empty string. -/
def jsJoinElem (j : Json) : String :=
  match j with
  | .null => ""
  | v => jsAtomStr v

/-- JS `xs.join(sep)` (shallow: nested arrays are out of scope here). -/
def jsJoin (sep : String) (xs : List Json) : String :=
  String.intercalate sep (xs.map jsJoinElem)

/-- JS `String()` including one level of arrays (comma-joined). -/
def jsStringOf (j : Json) : String :=
  match j with
  | .arr xs => jsJoin "," xs
  | v => jsAtomStr v

/-- Decimal digit-string value; `none` if empty or a non-digit occurs. -/
def digitsVal (cs : List Char) : Option Nat :=
  match cs with
  | [] => none
  | _ =>
    cs.foldl
      (fun acc c =>
        match acc with
        | none => none
        | some a => if c.isDigit then some (a * 10 + (c.toNat - 48)) else none)
      (some 0)

/-- An optionally signed decimal integer character sequence. -/
def intOfChars (cs : List Char) : Option Int :=
  match cs with
  | '-' :: rest => (digitsVal rest).map (fun n => -(n : Int))
  | '+' :: rest => (digitsVal rest).map (fun n => (n : Int))
  | _ => (digitsVal cs).map (fun n => (n : Int))

/-- Ajv string-to-integer coercion: an optionally signed decimal integer
string parses; anything else (including the empty string and non-integral
forms, which fail the `integer` type anyway) is not coerced. -/
def intOfString (s : String) : Option Int :=
  intOfChars s.data

/-- Strip leading and trailing whitespace. -/
def trimChars (cs : List Char) : List Char :=
  ((cs.dropWhile Char.isWhitespace).reverse.dropWhile
    Char.isWhitespace).reverse

/-- JS `Number()` on a string, restricted to integral forms: the empty /
whitespace-only string is `0`, signed decimal integers parse, and anything
else is NaN (`none`).  Non-integral numeric strings are outside the scope
of this model (no value in this repository produces them). -/
def jsNumberInt (s : String) : Option Int :=
  let t := trimChars s.data
  if t = [] then some 0 else intOfChars t

def hexDigitChar (n : Nat) : Char :=
  if n < 10 then Char.ofNat (48 + n) else Char.ofNat (55 + n)

/-- Characters `encodeURIComponent` leaves unescaped
(alphanumerics and `-_.!~*'()`; the apostrophe is written by code). -/
def isUnreservedURI (c : Char) : Bool :=
  (65 ≤ c.toNat ∧ c.toNat ≤ 90) ∨ (97 ≤ c.toNat ∧ c.toNat ≤ 122) ∨
  (48 ≤ c.toNat ∧ c.toNat ≤ 57) ∨
  c ∈ ['-', '_', '.', '!', '~', '*', '(', ')'] ∨ c.toNat = 39

def pctEncodeChar (c : Char) : String :=
  String.join
    (((String.singleton c).toUTF8.toList).map
      (fun b => "%" ++ String.mk [hexDigitChar (b.toNat / 16), hexDigitChar (b.toNat % 16)]))

def encodeURIComponent (s : String) : String :=
  String.join
    (s.data.map (fun c => if isUnreservedURI c then String.singleton c else pctEncodeChar c))

/-- One Ajv validation error object (`v.errors` element).  The source only
forwards these opaquely into the JSON-RPC error `data` slot. -/
structure AjvError where
  instancePath : String
  keyword : String
  params : Json
  message : String

/-- A JS `Error` object as thrown across layers of server.js, with the ad
hoc fields the source attaches (`status`, `data`, `code`, `validation`). -/
structure JsError where
  name : String
  message : String
  status : Option Nat
  data : Option Json
  code : Option String
  validation : Option (List AjvError)

def mkErr (msg : String) : JsError :=
  { name := "Error", message := msg, status := none, data := none,
    code := none, validation := none }

/-!
## Argument Validator (Ajv with allErrors, removeAdditional: "failing",
coerceTypes: true — and, notably, **without** useDefaults)

The schemas of server.js are interpreted by one generic validator.  Only
the schema features the three validated tools use are modelled (object
type, string minLength/enum, integer minimum/maximum, boolean, anyOf of a
string and a string array, required, additionalProperties: false).
`default` annotations are carried in the schema but — exactly as in the
source, where `useDefaults` is not enabled — never applied.
-/

/-- Ajv `coerceTypes: true` coercion to integer: numbers pass, numeric
strings parse, booleans become 0/1, `null` becomes 0; everything else is
a type error. -/
def coerceToInt (v : Json) : Option Int :=
  match v with
  | .num n => some n
  | .str s => intOfString s
  | .bool b => some (if b then 1 else 0)
  | .null => some 0
  | _ => none

/-- Ajv coercion to string: numbers and booleans are converted. -/
def coerceToStr (v : Json) : Option String :=
  match v with
  | .str s => some s
  | .num n => some (toString n)
  | .bool b => some (if b then "true" else "false")
  | _ => none

/-- Ajv coercion to boolean: only `"true"`/`"false"`, `1`/`0`, `null`. -/
def coerceToBool (v : Json) : Option Bool :=
  match v with
  | .bool b => some b
  | .str "true" => some true
  | .str "false" => some false
  | .num 1 => some true
  | .num 0 => some false
  | .null => some false
  | _ => none

def typeErr (path kind : String) : AjvError :=
  { instancePath := path, keyword := "type",
    params := .obj [("type", .str kind)], message := "must be " ++ kind }

def minLengthErr (path : String) (m : Nat) : AjvError :=
  { instancePath := path, keyword := "minLength",
    params := .obj [("limit", .num (m : Int))],
    message := s!"must NOT have fewer than {m} characters" }

def enumErr (path : String) : AjvError :=
  { instancePath := path, keyword := "enum", params := .obj [],
    message := "must be equal to one of the allowed values" }

def minimumErr (path : String) (m : Int) : AjvError :=
  { instancePath := path, keyword := "minimum",
    params := .obj [("limit", .num m)], message := s!"must be >= {m}" }

def maximumErr (path : String) (m : Int) : AjvError :=
  { instancePath := path, keyword := "maximum",
    params := .obj [("limit", .num m)], message := s!"must be <= {m}" }

def minItemsErr (path : String) (m : Nat) : AjvError :=
  { instancePath := path, keyword := "minItems",
    params := .obj [("limit", .num (m : Int))],
    message := s!"must NOT have fewer than {m} items" }

def anyOfErr (path : String) : AjvError :=
  { instancePath := path, keyword := "anyOf", params := .obj [],
    message := "must match a schema in anyOf" }

def requiredErr (k : String) : AjvError :=
  { instancePath := "", keyword := "required",
    params := .obj [("missingProperty", .str k)],
    message := s!"must have required property {k}" }

/-- The non-composite property schemas occurring in server.js. -/
inductive PBase where
  | pstr (minLength : Option Nat) (enum : Option (List String))
  | pint (minimum : Option Int) (maximum : Option Int)
  | pbool
  | parrStr (minItems : Option Nat) (itemMinLength : Option Nat)

/-- A property schema: a base schema with an optional declared `default`
(recorded but never applied — Ajv is configured without `useDefaults`),
or an `anyOf` of base schemas. -/
inductive PSchema where
  | base (b : PBase) (dflt : Option Json)
  | anyOf (branches : List PBase)

/-- An object schema: `type: "object"` with `properties`, `required` and
`additionalProperties` (false ⇒ removeAdditional "failing" silently drops
unknown keys). -/
structure OSchema where
  props : List (String × PSchema)
  required : List String
  addProps : Bool

def lookupProp (ps : List (String × PSchema)) (k : String) : Option PSchema :=
  match ps with
  | [] => none
  | (k2, v) :: rest => if k2 = k then some v else lookupProp rest k

/-- Validate/coerce one value against `{type: string, minLength?, enum?}`,
collecting all violated constraints (allErrors). -/
def checkStr (path : String) (minLength : Option Nat)
    (enum : Option (List String)) (v : Json) : Json × List AjvError :=
  match coerceToStr v with
  | none => (v, [typeErr path "string"])
  | some s =>
    let e1 := match minLength with
      | some m => if s.length < m then [minLengthErr path m] else []
      | none => []
    let e2 := match enum with
      | some xs => if s ∈ xs then [] else [enumErr path]
      | none => []
    (.str s, e1 ++ e2)

def checkBase (path : String) (b : PBase) (v : Json) : Json × List AjvError :=
  match b with
  | .pstr ml en => checkStr path ml en v
  | .pint lo hi =>
    match coerceToInt v with
    | none => (v, [typeErr path "integer"])
    | some n =>
      let e1 := match lo with
        | some m => if n < m then [minimumErr path m] else []
        | none => []
      let e2 := match hi with
        | some m => if m < n then [maximumErr path m] else []
        | none => []
      (.num n, e1 ++ e2)
  | .pbool =>
    match coerceToBool v with
    | none => (v, [typeErr path "boolean"])
    | some b => (.bool b, [])
  | .parrStr minItems itemMinLength =>
    match v with
    | .arr xs =>
      let checked := (xs.enum.map
        (fun p => checkStr (path ++ "/" ++ toString p.1) itemMinLength none p.2))
      let e0 := match minItems with
        | some m => if xs.length < m then [minItemsErr path m] else []
        | none => []
      (.arr (checked.map Prod.fst), e0 ++ (checked.map Prod.snd).flatten)
    | _ => (v, [typeErr path "array"])

/-- Keyword `anyOf`: the first branch that validates wins (with its coercions);
if none does, all branch errors plus an anyOf error are reported. -/
def checkAnyOfGo (path : String) (v : Json) (branches : List PBase)
    (acc : List AjvError) : Json × List AjvError :=
  match branches with
  | [] => (v, acc ++ [anyOfErr path])
  | b :: rest =>
    match checkBase path b v with
    | (v2, []) => (v2, [])
    | (_, errs) => checkAnyOfGo path v rest (acc ++ errs)

def checkProp (path : String) (ps : PSchema) (v : Json) : Json × List AjvError :=
  match ps with
  | .base b _ => checkBase path b v
  | .anyOf bs => checkAnyOfGo path v bs []

/-- Walk the object's own fields in order, validating/coercing each one
that has a schema.  Unknown fields only survive here when
`additionalProperties` allows them (otherwise they were already removed,
modelling removeAdditional: "failing"). -/
def validateFields (props : List (String × PSchema)) :
    List (String × Json) → List (String × Json) × List AjvError
  | [] => ([], [])
  | (k, v) :: rest =>
    let (restOut, restErrs) := validateFields props rest
    match lookupProp props k with
    | some ps =>
      let (v2, errs) := checkProp ("/" ++ k) ps v
      ((k, v2) :: restOut, errs ++ restErrs)
    | none => ((k, v) :: restOut, restErrs)

/-- The compiled Ajv validator on a schema: returns the (in-place
transformed) data together with the collected error list. -/
def ajvRun (s : OSchema) (j : Json) : Json × List AjvError :=
  match j with
  | .obj fields =>
    let kept := if s.addProps then fields
      else fields.filter (fun kv => (lookupProp s.props kv.1).isSome)
    let requiredErrs := s.required.filterMap
      (fun k => if (lookupF fields k).isSome then none else some (requiredErr k))
    let (outFields, propErrs) := validateFields s.props kept
    (.obj outFields, requiredErrs ++ propErrs)
  | _ => (j, [typeErr "" "object"])

/-- Model of `compile(schema)` of server.js: the returned closure **throws** an
`Error("Validation failed")` carrying `err.validation = v.errors` when
validation fails, and returns the (coerced) data otherwise.  The thrown
path is the `Except.error` branch. -/
def compileRun (s : OSchema) (j : Json) : Except JsError Json :=
  match ajvRun s j with
  | (d, []) => .ok d
  | (_, errs) =>
    .error { name := "Error", message := "Validation failed", status := none,
             data := none, code := none, validation := some errs }

def STATUS_ENUM : List String :=
  ["Not Started", "In Progress", "Blocked", "Completed", "On Hold"]

def schemaSearchProjectNodes : OSchema :=
  { props :=
      [("keywords", .anyOf [.pstr (some 1) none, .parrStr (some 1) (some 1)]),
       ("page", .base (.pint (some 0) none) (some (.num 0))),
       ("size", .base (.pint (some 1) (some 200)) (some (.num 50))),
       ("sort", .base (.pstr none none) (some (.str "insertDate,ASC"))),
       ("includePaths", .base .pbool (some (.bool true))),
       ("includeStakeholders", .base .pbool (some (.bool true)))],
    required := ["keywords"],
    addProps := false }

def schemaUpdateNodeStatus : OSchema :=
  { props :=
      [("nodeId", .base (.pstr (some 1) none) none),
       ("status", .base (.pstr none (some STATUS_ENUM)) none)],
    required := ["nodeId", "status"],
    addProps := false }

def schemaUpdateNode : OSchema :=
  { props :=
      [("nodeId", .base (.pstr (some 1) none) none),
       ("status", .base (.pstr none (some STATUS_ENUM)) none),
       ("nodeDescription", .base (.pstr none none) none),
       ("parentNodeId", .base (.pstr none none) none)],
    required := ["nodeId"],
    addProps := false }

def validateSearchProjectNodes : Json → Except JsError Json :=
  compileRun schemaSearchProjectNodes

def validateUpdateNodeStatus : Json → Except JsError Json :=
  compileRun schemaUpdateNodeStatus

def validateUpdateNode : Json → Except JsError Json :=
  compileRun schemaUpdateNode

/-- The `default` a schema declares for a property (never applied by the
validator, since the Ajv instance lacks `useDefaults`). -/
def schemaDefault (s : OSchema) (k : String) : Option Json :=
  match lookupProp s.props k with
  | some (.base _ d) => d
  | some (.anyOf _) => none
  | none => none

/-!
## Response Normalizer (parseBreadcrumb, item mapping, page info)
-/

structure Breadcrumb where
  array : List Json
  text : String

/-- Model of `parseBreadcrumb(treePath)` of server.js.  `treePath` is the value of
the item's field (or `none` for `undefined`); `parse` is the JSON.parse
oracle.  Falsy inputs and any parse failure yield `{array: [], text: ""}`;
a parsed non-array also yields the empty breadcrumb; otherwise the truthy
`nodeName`s are collected and joined with " › ". -/
def parseBreadcrumb (parse : String → Option Json) (treePath : Option Json) :
    Breadcrumb :=
  match treePath with
  | none => ⟨[], ""⟩
  | some tp =>
    if jsTruthy tp = false then ⟨[], ""⟩
    else
      match parse (jsStringOf tp) with
      | none => ⟨[], ""⟩
      | some v =>
        match v with
        | .arr xs =>
          let names := xs.filterMap
            (fun n =>
              match jsGetOpt n "nodeName" with
              | some w => if jsTruthy w then some w else none
              | none => none)
          ⟨names, jsJoin " › " names⟩
        | _ => ⟨[], ""⟩

/-- The normalized item built from one raw search result `n` (server.js
lines 440-450); keys whose value is `undefined` are dropped (JSON
serialization). -/
def itemOf (n : Json) (bc : Breadcrumb) : Json :=
  .obj (optField "nodeId" (jsGetOpt n "recCode") ++
        optField "nodeName" (jsGetOpt n "nodeName") ++
        [("status", orNull (jsGetOpt n "status")),
         ("parentNodeId", orNull (jsGetOpt n "parentNodeId")),
         ("nodeTypeId", orNull (jsGetOpt n "nodeTypeId")),
         ("nodeTypeName", orNull (jsGetOpt n "nodeTypeName")),
         ("breadcrumb", .arr bc.array),
         ("breadcrumbText", .str bc.text),
         ("raw", n)])

/-- Mapping one item.  A `null` element makes both the primary mapping and
the catch-branch fallback throw a TypeError (`n.treePath` resp.
`n.recCode` on `null`), so the exception escapes the map. -/
def mapItem (parse : String → Option Json) (n : Json) : Except JsError Json :=
  match n with
  | .null =>
    .error { mkErr "Cannot read properties of null" with name := "TypeError" }
  | _ => .ok (itemOf n (parseBreadcrumb parse (jsGetOpt n "treePath")))

/-- JS `content.map(...)`: the first thrown exception aborts the batch. -/
def mapItems (parse : String → Option Json) :
    List Json → Except JsError (List Json)
  | [] => .ok []
  | n :: rest =>
    match mapItem parse n with
    | .error e => .error e
    | .ok it =>
      match mapItems parse rest with
      | .error e => .error e
      | .ok its => .ok (it :: its)

/-- Extraction `raw?.data?.content ?? []` (server.js line 428). -/
def extractContent (raw : Json) : Json :=
  coal (jnav raw ["data", "content"]) (.arr [])

/-- The page info object (server.js lines 472-477): each field defaults
independently when its own source location is `null`/absent. -/
def buildPageInfo (raw : Json) (cnt : Nat) : Json :=
  .obj [("page", coal (jnav raw ["data", "pageable", "pageNumber"]) (.num 0)),
        ("size", coal (jnav raw ["data", "pageable", "pageSize"]) (.num (cnt : Int))),
        ("total", coal (jnav raw ["data", "totalElements"]) (.num (cnt : Int))),
        ("totalPages", coal (jnav raw ["data", "totalPages"]) (.num 1))]

/-- Steps 4-7 of the searchProjectNodes handler: extract content, map the
items, and build `{items, pageInfo}`.  A non-array truthy `content` makes
`content.map` throw. -/
def normalizeSearch (parse : String → Option Json) (raw : Json) :
    Except JsError Json :=
  match extractContent raw with
  | .arr ns =>
    match mapItems parse ns with
    | .error e => .error e
    | .ok items =>
      .ok (.obj [("items", .arr items),
                 ("pageInfo", buildPageInfo raw items.length)])
  | _ =>
    .error { mkErr "content.map is not a function" with name := "TypeError" }

/-!
## Upstream Client (`erp` — fetch with timeout + retry, server.js 60-148)
-/

/-- The outcome of the fetch performed on one attempt: a response (status,
optional `retry-after` header value, body text), or a thrown exception
(`name = "AbortError"` is the fired timeout). -/
inductive FetchOutcome where
  | response (status : Nat) (retryAfter : Option String) (text : String)
  | thrown (name : String) (msg : String)

/-- The observable trace of a call: how many fetches were issued, the
sleeps performed between attempts (ms), and the final return / throw. -/
structure CallTrace where
  calls : Nat
  delays : List Int
  result : Except JsError Json

def DEFAULT_TIMEOUT_MS : Nat := 15000

def RETRY_STATUS : List Nat := [429, 502, 503, 504]

/-- Delay `Number(res.headers.get("retry-after")) || 500 * 2^attempt`:
an absent header is `Number(null) = 0` and falsy; a header whose `Number`
is `0` or NaN is falsy too; any other value wins. -/
def retryAfterDelay (retryAfter : Option String) (attempt : Nat) : Int :=
  let n : Option Int :=
    match retryAfter with
    | none => some 0
    | some h => jsNumberInt h
  match n with
  | some k => if k = 0 then 500 * 2 ^ attempt else k
  | none => 500 * 2 ^ attempt

def timeoutErr (timeoutMs : Nat) : JsError :=
  mkErr s!"ERP request timed out after {timeoutMs}ms"

/-- The error thrown for a non-OK response (server.js 122-127); the
message uses the request path (`url.pathname`). -/
def statusErr (method path : String) (status : Nat) (data : Json) : JsError :=
  { mkErr s!"ERP {method} {path} failed: {status}" with
    status := some status, data := some data }

/-- Body handling (server.js 101-109): the debug `JSON.parse(text)` on
line 104 runs unconditionally inside the inner try, so *any* text that
does not parse — including the empty body, since `JSON.parse("")` throws —
takes the catch branch and becomes `{raw: text}`. -/
def wrapBody (parse : String → Option Json) (text : String) : Json :=
  match parse text with
  | some v => v
  | none => .obj [("raw", .str text)]

/-- The `while (attempt <= maxRetries)` loop.  `gas` is the remaining
number of loop iterations (`maxRetries + 1 - attempt`); the `gas = 0` case
mirrors the unreachable fall-through `throw lastErr || Error("Unknown ERP
error")` on line 147.  Crucially, the `throw err` for a non-OK response
sits *inside* the `try`, so the catch branch also retries non-retryable
statuses (with the 300ms schedule) while attempts remain. -/
def erpGo (parse : String → Option Json) (upstream : Nat → FetchOutcome)
    (method path : String) (timeoutMs maxRetries : Nat) :
    Nat → Nat → Option JsError → CallTrace
  | 0, _, lastErr => ⟨0, [], .error (lastErr.getD (mkErr "Unknown ERP error"))⟩
  | gas + 1, attempt, lastErr =>
    match upstream attempt with
    | .thrown nm msg =>
      let e := if nm = "AbortError" then timeoutErr timeoutMs
               else { mkErr msg with name := nm }
      if attempt < maxRetries then
        let rest := erpGo parse upstream method path timeoutMs maxRetries
          gas (attempt + 1) (some e)
        ⟨rest.calls + 1, (300 * 2 ^ attempt : Int) :: rest.delays, rest.result⟩
      else ⟨1, [], .error e⟩
    | .response status retryAfter text =>
      let data := wrapBody parse text
      if 200 ≤ status ∧ status < 300 then
        ⟨1, [], .ok (if jsIsNull data then .obj [] else data)⟩
      else if status ∈ RETRY_STATUS ∧ attempt < maxRetries then
        let rest := erpGo parse upstream method path timeoutMs maxRetries
          gas (attempt + 1) lastErr
        ⟨rest.calls + 1, retryAfterDelay retryAfter attempt :: rest.delays,
         rest.result⟩
      else
        let e := statusErr method path status data
        if attempt < maxRetries then
          let rest := erpGo parse upstream method path timeoutMs maxRetries
            gas (attempt + 1) (some e)
          ⟨rest.calls + 1, (300 * 2 ^ attempt : Int) :: rest.delays,
           rest.result⟩
        else ⟨1, [], .error e⟩

/-- Model of `erp(path, {method, maxRetries})`: attempts start at 0; the request
body and query string only influence the call through the upstream
oracle. -/
def erpRun (parse : String → Option Json) (upstream : Nat → FetchOutcome)
    (method path : String) (maxRetries : Nat) : CallTrace :=
  erpGo parse upstream method path DEFAULT_TIMEOUT_MS maxRetries
    (maxRetries + 1) 0 none

/-!
## Tool Dispatcher (handleToolCall) and RPC Front Door
-/

/-- The query object of the searchProjectNodes handler (server.js
406-413): every absent/null validated field is replaced by the hardcoded
fallback with `??`. -/
def searchQuery (a : Json) (kw : String) : Json :=
  .obj [("keywords", .str kw),
        ("page", coal (getF a "page") (.num 0)),
        ("size", coal (getF a "size") (.num 50)),
        ("sort", coal (getF a "sort") (.str "insertDate,ASC")),
        ("includePaths", coal (getF a "includePaths") (.bool true)),
        ("includeStakeholders", coal (getF a "includeStakeholders") (.bool true))]

/-- Expression `typeof a.keywords` selects the string or joins the array.
Post-validation the value is a string or an array of strings; calling
`.join` on anything else throws. -/
def keywordsString (a : Json) : Except JsError String :=
  match getF a "keywords" with
  | some (.str s) => .ok s
  | some (.arr xs) => .ok (jsJoin " " xs)
  | some _ =>
    .error { mkErr "a.keywords.join is not a function" with name := "TypeError" }
  | none =>
    .error { mkErr "Cannot read properties of undefined" with name := "TypeError" }

/-- The searchProjectNodes case of handleToolCall.  Its try/catch logs and
rethrows, so every thrown error propagates unchanged; validation and
query-building failures happen before any upstream call. -/
def searchHandler (parse : String → Option Json)
    (upstream : Nat → FetchOutcome) (args : Json) : CallTrace :=
  match validateSearchProjectNodes args with
  | .error e => ⟨0, [], .error e⟩
  | .ok a =>
    match keywordsString a with
    | .error e => ⟨0, [], .error e⟩
    | .ok kw =>
      let _query := searchQuery a kw
      let run := erpRun parse upstream "GET"
        "/api/v1/projects/nodes/search/searchNodesArray" 2
      match run.result with
      | .error e => ⟨run.calls, run.delays, .error e⟩
      | .ok raw =>
        match normalizeSearch parse raw with
        | .error e => ⟨run.calls, run.delays, .error e⟩
        | .ok result => ⟨run.calls, run.delays, .ok result⟩

/-- The updateNodeStatus case: validate, PUT
`/api/v1/projects/nodes/{nodeId}/status`, return
`{ok: true, nodeId, status, raw}`. -/
def updateNodeStatusHandler (parse : String → Option Json)
    (upstream : Nat → FetchOutcome) (args : Json) : CallTrace :=
  match validateUpdateNodeStatus args with
  | .error e => ⟨0, [], .error e⟩
  | .ok a =>
    let nodeIdStr := jsStringOf (coal (getF a "nodeId") .null)
    let run := erpRun parse upstream "PUT"
      ("/api/v1/projects/nodes/" ++ encodeURIComponent nodeIdStr ++ "/status") 2
    match run.result with
    | .error e => ⟨run.calls, run.delays, .error e⟩
    | .ok raw =>
      ⟨run.calls, run.delays,
       .ok (.obj ([("ok", .bool true)] ++
                  optField "nodeId" (getF a "nodeId") ++
                  optField "status" (getF a "status") ++
                  [("raw", raw)]))⟩

/-- The updateNode case (server.js 530-575): validate, assemble the PUT
body from the fields that are `!== undefined`, throw
`NO_FIELDS` when the body is empty — *before* any upstream call — and
otherwise PUT `/api/v1/projects/nodes/{nodeId}`. -/
def updateNodeHandler (parse : String → Option Json)
    (upstream : Nat → FetchOutcome) (args : Json) : CallTrace :=
  match validateUpdateNode args with
  | .error e => ⟨0, [], .error e⟩
  | .ok a =>
    let body := optField "status" (getF a "status") ++
                optField "nodeDescription" (getF a "nodeDescription") ++
                optField "parentNodeId" (getF a "parentNodeId")
    if body.length = 0 then
      ⟨0, [],
       .error { mkErr "Nothing to update: provide at least one of status, nodeDescription, parentNodeId" with
                code := some "NO_FIELDS" }⟩
    else
      let nodeIdStr := jsStringOf (coal (getF a "nodeId") .null)
      let run := erpRun parse upstream "PUT"
        ("/api/v1/projects/nodes/" ++ encodeURIComponent nodeIdStr) 2
      match run.result with
      | .error e => ⟨run.calls, run.delays, .error e⟩
      | .ok raw =>
        ⟨run.calls, run.delays,
         .ok (.obj ([("ok", .bool true)] ++
                    optField "nodeId" (getF a "nodeId") ++ body ++
                    [("raw", raw)]))⟩

/-- A passthrough tool case: `return await erp(path, {method})` (the
createIndent case additionally sends `args` as the body, which reaches the
network only through the upstream oracle; no schema re-validation). -/
def passthrough (parse : String → Option Json)
    (upstream : Nat → FetchOutcome) (method path : String) : CallTrace :=
  let run := erpRun parse upstream method path 2
  ⟨run.calls, run.delays, run.result⟩

/-- Model of `handleToolCall(name, args)` (server.js 391-600). -/
def handleToolCall (parse : String → Option Json)
    (upstream : Nat → FetchOutcome) (name : String) (args : Json) : CallTrace :=
  match name with
  | "searchProjectNodes" => searchHandler parse upstream args
  | "updateNodeStatus" => updateNodeStatusHandler parse upstream args
  | "updateNode" => updateNodeHandler parse upstream args
  | "generateIndentNumber" =>
    passthrough parse upstream "GET" "/api/v1/indents/generate-number"
  | "fetchProjects" => passthrough parse upstream "GET" "/api/v1/projects"
  | "listLocations" => passthrough parse upstream "GET" "/api/v1/locations"
  | "listItems" => passthrough parse upstream "GET" "/api/v1/items"
  | "listUnits" => passthrough parse upstream "GET" "/api/v1/units"
  | "createIndent" => passthrough parse upstream "POST" "/api/v1/indents"
  | _ => ⟨0, [], .error (mkErr ("Unknown tool: " ++ name))⟩

def ajvErrorJson (a : AjvError) : Json :=
  .obj [("instancePath", .str a.instancePath), ("keyword", .str a.keyword),
        ("params", a.params), ("message", .str a.message)]

/-- Slot `err?.validation || err?.data || null` (server.js 680): JS truthiness
picks the first truthy of the two optional fields (arrays are always
truthy). -/
def envData (e : JsError) : Json :=
  match e.validation with
  | some errs => .arr (errs.map ajvErrorJson)
  | none =>
    match e.data with
    | some d => if jsTruthy d then d else .null
    | none => .null

/-- The structured JSON-RPC error envelope built by the catch handler of
`app.post("/")` (server.js 672-683). -/
def rpcErrorEnvelope (id : Json) (e : JsError) : Json :=
  .obj [("jsonrpc", .str "2.0"), ("id", id),
        ("error",
         .obj [("code", .num (-32603)),
               ("message", .str (if e.message = "" then "Internal error" else e.message)),
               ("data", envData e)])]

def rpcResultEnvelope (id : Json) (d : Json) : Json :=
  .obj [("jsonrpc", .str "2.0"), ("id", id),
        ("result",
         .obj [("content", .arr [.obj [("type", .str "json"), ("data", d)]])])]

/-- The `tools/call` branch of the RPC front door: every thrown error from
the dispatcher is caught and serialized into a structured envelope error
(the function is total — no exception can escape). -/
def rpcToolsCall (parse : String → Option Json)
    (upstream : Nat → FetchOutcome) (id : Json) (name : String)
    (args : Json) : CallTrace × Json :=
  let o := handleToolCall parse upstream name args
  (o, match o.result with
      | .ok d => rpcResultEnvelope id d
      | .error e => rpcErrorEnvelope id e)

/-!
## Helper lemmas about the retry loop
-/

/-- The error bound to `lastErr` in the catch branch for a thrown
exception: an AbortError becomes the timeout error. -/
def thrownErr (tms : Nat) (nm msg : String) : JsError :=
  if nm = "AbortError" then timeoutErr tms else { mkErr msg with name := nm }

theorem erpGo_step_thrown (parse : String → Option Json)
    (upstream : Nat → FetchOutcome) (method path : String)
    (tms maxR gas a : Nat) (le : Option JsError) (nm msg : String)
    (ha : a < maxR) (hup : upstream a = .thrown nm msg) :
    erpGo parse upstream method path tms maxR (gas + 1) a le =
      ⟨(erpGo parse upstream method path tms maxR gas (a + 1)
          (some (thrownErr tms nm msg))).calls + 1,
       (300 * 2 ^ a : Int) ::
         (erpGo parse upstream method path tms maxR gas (a + 1)
           (some (thrownErr tms nm msg))).delays,
       (erpGo parse upstream method path tms maxR gas (a + 1)
         (some (thrownErr tms nm msg))).result⟩ := by
  simp [erpGo, hup, ha, thrownErr]

theorem erpGo_last_thrown (parse : String → Option Json)
    (upstream : Nat → FetchOutcome) (method path : String)
    (tms maxR gas a : Nat) (le : Option JsError) (nm msg : String)
    (ha : ¬ a < maxR) (hup : upstream a = .thrown nm msg) :
    erpGo parse upstream method path tms maxR (gas + 1) a le =
      ⟨1, [], .error (thrownErr tms nm msg)⟩ := by
  simp [erpGo, hup, ha, thrownErr]

theorem erpGo_ok (parse : String → Option Json)
    (upstream : Nat → FetchOutcome) (method path : String)
    (tms maxR gas a : Nat) (le : Option JsError) (s : Nat)
    (ra : Option String) (text : String)
    (hok : 200 ≤ s ∧ s < 300) (hup : upstream a = .response s ra text) :
    erpGo parse upstream method path tms maxR (gas + 1) a le =
      ⟨1, [],
       .ok (if jsIsNull (wrapBody parse text) then .obj []
            else wrapBody parse text)⟩ := by
  simp [erpGo, hup, hok]

theorem erpGo_step_retry (parse : String → Option Json)
    (upstream : Nat → FetchOutcome) (method path : String)
    (tms maxR gas a : Nat) (le : Option JsError) (s : Nat)
    (ra : Option String) (text : String)
    (hok : ¬ (200 ≤ s ∧ s < 300)) (hs : s ∈ RETRY_STATUS) (ha : a < maxR)
    (hup : upstream a = .response s ra text) :
    erpGo parse upstream method path tms maxR (gas + 1) a le =
      ⟨(erpGo parse upstream method path tms maxR gas (a + 1) le).calls + 1,
       retryAfterDelay ra a ::
         (erpGo parse upstream method path tms maxR gas (a + 1) le).delays,
       (erpGo parse upstream method path tms maxR gas (a + 1) le).result⟩ := by
  simp [erpGo, hup, hok, hs, ha]

theorem erpGo_step_fatal (parse : String → Option Json)
    (upstream : Nat → FetchOutcome) (method path : String)
    (tms maxR gas a : Nat) (le : Option JsError) (s : Nat)
    (ra : Option String) (text : String)
    (hok : ¬ (200 ≤ s ∧ s < 300)) (hs : s ∉ RETRY_STATUS) (ha : a < maxR)
    (hup : upstream a = .response s ra text) :
    erpGo parse upstream method path tms maxR (gas + 1) a le =
      ⟨(erpGo parse upstream method path tms maxR gas (a + 1)
          (some (statusErr method path s (wrapBody parse text)))).calls + 1,
       (300 * 2 ^ a : Int) ::
         (erpGo parse upstream method path tms maxR gas (a + 1)
           (some (statusErr method path s (wrapBody parse text)))).delays,
       (erpGo parse upstream method path tms maxR gas (a + 1)
         (some (statusErr method path s (wrapBody parse text)))).result⟩ := by
  simp [erpGo, hup, hok, hs, ha]

theorem erpGo_last_status (parse : String → Option Json)
    (upstream : Nat → FetchOutcome) (method path : String)
    (tms maxR gas a : Nat) (le : Option JsError) (s : Nat)
    (ra : Option String) (text : String)
    (hok : ¬ (200 ≤ s ∧ s < 300)) (ha : ¬ a < maxR)
    (hup : upstream a = .response s ra text) :
    erpGo parse upstream method path tms maxR (gas + 1) a le =
      ⟨1, [], .error (statusErr method path s (wrapBody parse text))⟩ := by
  simp [erpGo, hup, hok, ha]

/-- The list `[f a, f (a+1), ..., f (a+g-1)]` of inter-attempt delays. -/
def backoffs (f : Nat → Int) : Nat → Nat → List Int
  | _, 0 => []
  | a, g + 1 => f a :: backoffs f (a + 1) g

theorem backoffs_congr (f g : Nat → Int) (h : ∀ n, f n = g n) :
    ∀ a m, backoffs f a m = backoffs g a m := by
  intro a m
  induction m generalizing a with
  | zero => rfl
  | succ k ih => simp [backoffs, h, ih]

/-- Trace of the loop when every attempt's fetch throws: each failure is
caught, retried with the `300 * 2^attempt` backoff while attempts remain,
and the final error is surfaced. -/
theorem erpGo_thrown_trace (parse : String → Option Json)
    (nm msg method path : String) (tms maxR : Nat) :
    ∀ (g a : Nat) (le : Option JsError), a + g = maxR →
      erpGo parse (fun _ => .thrown nm msg) method path tms maxR
          (g + 1) a le =
        ⟨g + 1, backoffs (fun n => (300 * 2 ^ n : Int)) a g,
         .error (thrownErr tms nm msg)⟩ := by
  intro g
  induction g with
  | zero =>
    intro a le h
    rw [erpGo_last_thrown parse _ method path tms maxR 0 a le nm msg
      (by omega) rfl]
    rfl
  | succ k ih =>
    intro a le h
    rw [erpGo_step_thrown parse _ method path tms maxR (k + 1) a le nm msg
      (by omega) rfl]
    rw [ih (a + 1) (some (thrownErr tms nm msg)) (by omega)]
    rfl

/-- Trace of the loop when every attempt gets a response with a retryable
status: retries use `retryAfterDelay`, and once attempts are exhausted the
status error constructed on the last attempt is thrown. -/
theorem erpGo_retry_status_trace (parse : String → Option Json) (s : Nat)
    (ra : Option String) (text method path : String) (tms maxR : Nat)
    (hs : s ∈ RETRY_STATUS) :
    ∀ (g a : Nat) (le : Option JsError), a + g = maxR →
      erpGo parse (fun _ => .response s ra text) method path tms maxR
          (g + 1) a le =
        ⟨g + 1, backoffs (retryAfterDelay ra) a g,
         .error (statusErr method path s (wrapBody parse text))⟩ := by
  have hok : ¬ (200 ≤ s ∧ s < 300) := by
    have hcases : s = 429 ∨ s = 502 ∨ s = 503 ∨ s = 504 := by
      simpa [RETRY_STATUS] using hs
    rcases hcases with rfl | rfl | rfl | rfl <;> omega
  intro g
  induction g with
  | zero =>
    intro a le h
    rw [erpGo_last_status parse _ method path tms maxR 0 a le s ra text hok
      (by omega) rfl]
    rfl
  | succ k ih =>
    intro a le h
    rw [erpGo_step_retry parse _ method path tms maxR (k + 1) a le s ra text
      hok hs (by omega) rfl]
    rw [ih (a + 1) le (by omega)]
    rfl

/-- Trace of the loop when every attempt gets a non-OK, non-retryable
status: the thrown status error lands in the catch branch, which *still*
retries it on the `300 * 2^attempt` schedule while attempts remain. -/
theorem erpGo_fatal_status_trace (parse : String → Option Json) (s : Nat)
    (ra : Option String) (text method path : String) (tms maxR : Nat)
    (hok : ¬ (200 ≤ s ∧ s < 300)) (hs : s ∉ RETRY_STATUS) :
    ∀ (g a : Nat) (le : Option JsError), a + g = maxR →
      erpGo parse (fun _ => .response s ra text) method path tms maxR
          (g + 1) a le =
        ⟨g + 1, backoffs (fun n => (300 * 2 ^ n : Int)) a g,
         .error (statusErr method path s (wrapBody parse text))⟩ := by
  intro g
  induction g with
  | zero =>
    intro a le h
    rw [erpGo_last_status parse _ method path tms maxR 0 a le s ra text hok
      (by omega) rfl]
    rfl
  | succ k ih =>
    intro a le h
    rw [erpGo_step_fatal parse _ method path tms maxR (k + 1) a le s ra text
      hok hs (by omega) rfl]
    rw [ih (a + 1) (some (statusErr method path s (wrapBody parse text)))
      (by omega)]
    rfl

/-!
## Claims
-/

/-- Claim C1: when the upstream returns a retryable status (429, 502, 503
or 504) on every attempt and `maxRetries = 2`, the erp client performs
exactly 3 attempts; the exhausted retry surfaces as a structured error
carrying the upstream HTTP status (in `err.status` and the message) and
the RPC front door converts it into a structured JSON-RPC error envelope
(`rpcToolsCall` is total — no raw exception escapes). -/
theorem erp_retry_exhaustion_surfaces_status (s : Nat)
    (hs : s ∈ RETRY_STATUS) (ra : Option String) (text : String)
    (parse : String → Option Json) (id : Json) :
    (erpRun parse (fun _ => .response s ra text) "GET"
        "/api/v1/projects" 2).calls = 3 ∧
    (erpRun parse (fun _ => .response s ra text) "GET"
        "/api/v1/projects" 2).result =
      .error (statusErr "GET" "/api/v1/projects" s (wrapBody parse text)) ∧
    (statusErr "GET" "/api/v1/projects" s (wrapBody parse text)).status =
      some s ∧
    (rpcToolsCall parse (fun _ => .response s ra text) id "fetchProjects"
        (.obj [])).1.calls = 3 ∧
    (rpcToolsCall parse (fun _ => .response s ra text) id "fetchProjects"
        (.obj [])).2 =
      rpcErrorEnvelope id
        (statusErr "GET" "/api/v1/projects" s (wrapBody parse text)) := by
  have h := erpGo_retry_status_trace parse s ra text "GET" "/api/v1/projects"
    DEFAULT_TIMEOUT_MS 2 hs 2 0 none rfl
  refine ⟨?_, ?_, rfl, ?_, ?_⟩
  · simp [erpRun, h]
  · simp [erpRun, h]
  · simp [rpcToolsCall, handleToolCall, passthrough, erpRun, h]
  · simp [rpcToolsCall, handleToolCall, passthrough, erpRun, h]

theorem erp_retry_exhaustion_surfaces_status_witness :
    503 ∈ RETRY_STATUS ∧
    ((erpRun (fun _ => none) (fun _ => .response 503 none "") "GET"
        "/api/v1/projects" 2).calls = 3 ∧
     (erpRun (fun _ => none) (fun _ => .response 503 none "") "GET"
        "/api/v1/projects" 2).result =
       .error (statusErr "GET" "/api/v1/projects" 503
         (wrapBody (fun _ => none) "")) ∧
     (statusErr "GET" "/api/v1/projects" 503
        (wrapBody (fun _ => none) "")).status = some 503 ∧
     (rpcToolsCall (fun _ => none) (fun _ => .response 503 none "")
        Json.null "fetchProjects" (.obj [])).1.calls = 3 ∧
     (rpcToolsCall (fun _ => none) (fun _ => .response 503 none "")
        Json.null "fetchProjects" (.obj [])).2 =
       rpcErrorEnvelope Json.null
         (statusErr "GET" "/api/v1/projects" 503
           (wrapBody (fun _ => none) ""))) :=
  ⟨by decide,
   erp_retry_exhaustion_surfaces_status 503 (by decide) none ""
     (fun _ => none) Json.null⟩

/-- Claim C2 counterexample: `createIndent` is backed by an upstream POST,
yet when the fetch times out on every attempt (an ambiguous failure — the
request may have been sent), the dispatcher issues the request 3 times
instead of the 1 time the claim requires. -/
theorem mutating_retry_counterexample :
    (handleToolCall (fun _ => none) (fun _ => .thrown "AbortError" "aborted")
        "createIndent" (.obj [])).calls = 3 ∧
    ¬ (handleToolCall (fun _ => none)
        (fun _ => .thrown "AbortError" "aborted")
        "createIndent" (.obj [])).calls = 1 := by
  refine ⟨rfl, fun h => ?_⟩
  have h3 : (3 : Nat) = 1 := h
  omega

/-- Claim C2 (amended): the retry loop of `erp` is method-agnostic, so the
dispatcher *does* re-issue mutating POST/PUT requests after ambiguous
failures: a timeout or network error on `createIndent` (POST) is retried
on the `300 * 2^attempt` schedule up to `maxRetries = 2` extra attempts
(3 requests in total), a non-retryable HTTP failure such as 400 is retried
the same way because the thrown status error lands in the same catch
branch, and a PUT (`updateNodeStatus`) behaves identically. -/
theorem mutating_ops_retried_on_ambiguous_failures
    (parse : String → Option Json) (args : Json) (nm msg : String)
    (ra : Option String) (text : String) :
    (handleToolCall parse (fun _ => .thrown nm msg) "createIndent"
        args).calls = 3 ∧
    (handleToolCall parse (fun _ => .thrown nm msg) "createIndent"
        args).delays = [300, 600] ∧
    (handleToolCall parse (fun _ => .response 400 ra text) "createIndent"
        args).calls = 3 ∧
    (handleToolCall parse (fun _ => .thrown "AbortError" msg)
        "updateNodeStatus"
        (.obj [("nodeId", .str "n1"), ("status", .str "Completed")])).calls
      = 3 := by
  have h1 := erpGo_thrown_trace parse nm msg "POST" "/api/v1/indents"
    DEFAULT_TIMEOUT_MS 2 2 0 none rfl
  have h2 := erpGo_fatal_status_trace parse 400 ra text "POST"
    "/api/v1/indents" DEFAULT_TIMEOUT_MS 2 (by decide) (by decide) 2 0 none
    rfl
  have h3 := erpGo_thrown_trace parse "AbortError" msg "PUT"
    ("/api/v1/projects/nodes/" ++ encodeURIComponent "n1" ++ "/status")
    DEFAULT_TIMEOUT_MS 2 2 0 none rfl
  refine ⟨?_, ?_, ?_, ?_⟩
  · simp [handleToolCall, passthrough, erpRun, h1]
  · simp [handleToolCall, passthrough, erpRun, h1]
    decide
  · simp [handleToolCall, passthrough, erpRun, h2]
  · have hv : validateUpdateNodeStatus
        (Json.obj [("nodeId", Json.str "n1"), ("status", Json.str "Completed")]) =
        .ok (Json.obj [("nodeId", Json.str "n1"), ("status", Json.str "Completed")]) := rfl
    have hnid : jsStringOf
        (coal (getF (Json.obj [("nodeId", Json.str "n1"),
          ("status", Json.str "Completed")]) "nodeId") Json.null) = "n1" := rfl
    simp [handleToolCall, updateNodeStatusHandler, hv, hnid, erpRun, h3]

/-- Claim C3: for each schema-bearing tool (searchProjectNodes,
updateNodeStatus, updateNode), whenever the compiled validator fails on
the supplied arguments, `handleToolCall` produces exactly that validation
error and performs zero upstream HTTP calls — validation failure
short-circuits before any network operation. -/
theorem validation_failure_short_circuits (parse : String → Option Json)
    (upstream : Nat → FetchOutcome) (args : Json) :
    (∀ e, validateSearchProjectNodes args = .error e →
       handleToolCall parse upstream "searchProjectNodes" args =
         ⟨0, [], .error e⟩) ∧
    (∀ e, validateUpdateNodeStatus args = .error e →
       handleToolCall parse upstream "updateNodeStatus" args =
         ⟨0, [], .error e⟩) ∧
    (∀ e, validateUpdateNode args = .error e →
       handleToolCall parse upstream "updateNode" args =
         ⟨0, [], .error e⟩) := by
  refine ⟨fun e h => ?_, fun e h => ?_, fun e h => ?_⟩
  · simp [handleToolCall, searchHandler, h]
  · simp [handleToolCall, updateNodeStatusHandler, h]
  · simp [handleToolCall, updateNodeHandler, h]

theorem validation_failure_short_circuits_witness :
    handleToolCall (fun _ => none) (fun _ => .thrown "E" "x")
        "searchProjectNodes" (.obj []) =
      ⟨0, [],
       .error { name := "Error", message := "Validation failed",
                status := none, data := none, code := none,
                validation := some [requiredErr "keywords"] }⟩ ∧
    handleToolCall (fun _ => none) (fun _ => .thrown "E" "x")
        "updateNodeStatus" (.obj []) =
      ⟨0, [],
       .error { name := "Error", message := "Validation failed",
                status := none, data := none, code := none,
                validation := some [requiredErr "nodeId", requiredErr "status"] }⟩ ∧
    handleToolCall (fun _ => none) (fun _ => .thrown "E" "x")
        "updateNode" (.obj []) =
      ⟨0, [],
       .error { name := "Error", message := "Validation failed",
                status := none, data := none, code := none,
                validation := some [requiredErr "nodeId"] }⟩ := by
  have h := validation_failure_short_circuits (fun _ => none)
    (fun _ => .thrown "E" "x") (.obj [])
  exact ⟨h.1 _ rfl, h.2.1 _ rfl, h.2.2 _ rfl⟩

/-- Claim C10: an updateNode call whose arguments pass schema validation
but supply none of status, nodeDescription, parentNodeId fails with the
NO_FIELDS error ("Nothing to update: provide at least one of status,
nodeDescription, parentNodeId") before any upstream HTTP request. -/
theorem updateNode_no_fields_short_circuits (parse : String → Option Json)
    (upstream : Nat → FetchOutcome) (args a : Json)
    (hv : validateUpdateNode args = .ok a)
    (h1 : getF a "status" = none) (h2 : getF a "nodeDescription" = none)
    (h3 : getF a "parentNodeId" = none) :
    handleToolCall parse upstream "updateNode" args =
      ⟨0, [],
       .error { mkErr "Nothing to update: provide at least one of status, nodeDescription, parentNodeId" with
                code := some "NO_FIELDS" }⟩ := by
  simp [handleToolCall, updateNodeHandler, hv, h1, h2, h3, optField]

theorem updateNode_no_fields_short_circuits_witness :
    validateUpdateNode (.obj [("nodeId", .str "n-1")]) =
      .ok (.obj [("nodeId", .str "n-1")]) ∧
    getF (Json.obj [("nodeId", Json.str "n-1")]) "status" = none ∧
    handleToolCall (fun _ => none) (fun _ => .thrown "E" "x") "updateNode"
        (.obj [("nodeId", .str "n-1")]) =
      ⟨0, [],
       .error { mkErr "Nothing to update: provide at least one of status, nodeDescription, parentNodeId" with
                code := some "NO_FIELDS" }⟩ :=
  ⟨rfl, rfl,
   updateNode_no_fields_short_circuits (fun _ => none)
     (fun _ => .thrown "E" "x") (.obj [("nodeId", .str "n-1")])
     (.obj [("nodeId", .str "n-1")]) rfl rfl rfl rfl⟩

/-- Claim C4 counterexample: the compiled validator does *not* return its
failure — it throws.  On `{}` the updateNodeStatus validator's outcome is
a thrown `Error("Validation failed")` (the `Except.error`/throw branch of
`compileRun`), which then crosses the dispatcher unhandled: the claim's
"never throws an exception past the validator boundary" is false. -/
theorem validator_throws_counterexample :
    validateUpdateNodeStatus (.obj []) =
      .error { name := "Error", message := "Validation failed",
               status := none, data := none, code := none,
               validation := some [requiredErr "nodeId", requiredErr "status"] } ∧
    (handleToolCall (fun _ => none) (fun _ => .thrown "E" "x")
        "updateNodeStatus" (.obj [])).result =
      .error { name := "Error", message := "Validation failed",
               status := none, data := none, code := none,
               validation := some [requiredErr "nodeId", requiredErr "status"] } :=
  ⟨rfl, rfl⟩

/-- Claim C4 (amended): the Argument Validator produces either a coerced,
schema-conformant mapping or a validation failure enumerating every
violated constraint (allErrors — e.g. both missing required fields of
updateNodeStatus are reported, not just the first) as a structured list of
per-field violations; but the failure is signalled by *throwing* an Error
carrying that list (`err.validation`) past the validator boundary, and it
is only the RPC front door that converts it into a structured envelope
error. -/
theorem validator_allErrors_but_throws (parse : String → Option Json)
    (upstream : Nat → FetchOutcome) (id : Json) :
    validateUpdateNodeStatus
        (.obj [("nodeId", .str "n1"), ("status", .str "Completed")]) =
      .ok (.obj [("nodeId", .str "n1"), ("status", .str "Completed")]) ∧
    validateUpdateNodeStatus (.obj []) =
      .error { name := "Error", message := "Validation failed",
               status := none, data := none, code := none,
               validation := some [requiredErr "nodeId", requiredErr "status"] } ∧
    handleToolCall parse upstream "updateNodeStatus" (.obj []) =
      ⟨0, [],
       .error { name := "Error", message := "Validation failed",
                status := none, data := none, code := none,
                validation := some [requiredErr "nodeId", requiredErr "status"] }⟩ ∧
    (rpcToolsCall parse upstream id "updateNodeStatus" (.obj [])).2 =
      rpcErrorEnvelope id
        { name := "Error", message := "Validation failed", status := none,
          data := none, code := none,
          validation := some [requiredErr "nodeId", requiredErr "status"] } := by
  refine ⟨rfl, rfl, ?_, ?_⟩
  · simp [handleToolCall, updateNodeStatusHandler,
      show validateUpdateNodeStatus (.obj []) =
        .error { name := "Error", message := "Validation failed",
                 status := none, data := none, code := none,
                 validation := some [requiredErr "nodeId", requiredErr "status"] }
      from rfl]
  · simp [rpcToolsCall, handleToolCall, updateNodeStatusHandler,
      show validateUpdateNodeStatus (.obj []) =
        .error { name := "Error", message := "Validation failed",
                 status := none, data := none, code := none,
                 validation := some [requiredErr "nodeId", requiredErr "status"] }
      from rfl]

/-- Claim C9 counterexample: `page` declares `default: 0` in the
searchProjectNodes schema, yet validating `{keywords: "k"}` returns a
mapping with *no* `page` field — the Ajv instance is created without
`useDefaults`, so declared defaults are never filled in. -/
theorem validator_defaults_not_applied_counterexample :
    schemaDefault schemaSearchProjectNodes "page" = some (.num 0) ∧
    validateSearchProjectNodes (.obj [("keywords", .str "k")]) =
      .ok (.obj [("keywords", .str "k")]) ∧
    getF (Json.obj [("keywords", Json.str "k")]) "page" = none :=
  ⟨rfl, rfl, rfl⟩

/-- Claim C9 (amended): coercion is applied before type-checking — a
numeric string supplied for the integer `page` field is converted to the
number wherever the schema expects an integer — but absent optional
fields that declare a `default` are *not* filled by the validator (no
`useDefaults`); instead the dispatcher fills the equivalent fallbacks
(`page 0, size 50, sort "insertDate,ASC", includePaths true,
includeStakeholders true`) with `??` when building the upstream query. -/
theorem validator_coerces_but_dispatcher_fills_defaults (s : String)
    (n : Int) (hn : intOfString s = some n) (h0 : 0 ≤ n) :
    validateSearchProjectNodes
        (.obj [("keywords", .str "k"), ("page", .str s)]) =
      .ok (.obj [("keywords", .str "k"), ("page", .num n)]) ∧
    schemaDefault schemaSearchProjectNodes "page" = some (.num 0) ∧
    validateSearchProjectNodes (.obj [("keywords", .str "k")]) =
      .ok (.obj [("keywords", .str "k")]) ∧
    searchQuery (.obj [("keywords", .str "k")]) "k" =
      .obj [("keywords", .str "k"), ("page", .num 0), ("size", .num 50),
            ("sort", .str "insertDate,ASC"), ("includePaths", .bool true),
            ("includeStakeholders", .bool true)] := by
  refine ⟨?_, rfl, rfl, rfl⟩
  have hlt : ¬ (n < 0) := by omega
  have hk : ¬ ("k".length = 0) := by decide
  simp [validateSearchProjectNodes, compileRun, ajvRun,
    schemaSearchProjectNodes, validateFields, lookupProp, checkProp,
    checkAnyOfGo, checkBase, checkStr, coerceToStr, coerceToInt, hn, hlt,
    hk, lookupF, requiredErr]

theorem validator_coerces_but_dispatcher_fills_defaults_witness :
    intOfString "3" = some 3 ∧ (0 : Int) ≤ 3 ∧
    (validateSearchProjectNodes
        (.obj [("keywords", .str "k"), ("page", .str "3")]) =
      .ok (.obj [("keywords", .str "k"), ("page", .num 3)]) ∧
    schemaDefault schemaSearchProjectNodes "page" = some (.num 0) ∧
    validateSearchProjectNodes (.obj [("keywords", .str "k")]) =
      .ok (.obj [("keywords", .str "k")]) ∧
    searchQuery (.obj [("keywords", .str "k")]) "k" =
      .obj [("keywords", .str "k"), ("page", .num 0), ("size", .num 50),
            ("sort", .str "insertDate,ASC"), ("includePaths", .bool true),
            ("includeStakeholders", .bool true)]) :=
  ⟨rfl, by decide,
   validator_coerces_but_dispatcher_fills_defaults "3" 3 rfl (by decide)⟩

/-- Claim C5 counterexample: a *present* `Retry-After: 0` header does not
override the HTTP-status schedule — `Number("0") = 0` is falsy in
`Number(h) || 500 * 2^attempt`, so the delays are 500 and 1000 ms, not the
0 ms the claim requires. -/
theorem retry_after_zero_ignored_counterexample :
    (erpRun (fun _ => none) (fun _ => .response 503 (some "0") "") "GET"
        "/p" 2).delays = [500, 1000] ∧
    ¬ ((erpRun (fun _ => none) (fun _ => .response 503 (some "0") "") "GET"
        "/p" 2).delays = [0, 0]) := by
  exact ⟨by decide, by decide⟩

/-- Is `Number(header) || fallback` going to take the fallback?  True for
an absent header (`Number(null) = 0`), a header whose `Number` is NaN, or
a header equal to 0. -/
def raFalsy (ra : Option String) : Bool :=
  match ra with
  | none => true
  | some h =>
    match jsNumberInt h with
    | none => true
    | some v => v = 0

theorem retryAfterDelay_falsy (ra : Option String) (n : Nat)
    (h : raFalsy ra = true) : retryAfterDelay ra n = 500 * 2 ^ n := by
  cases ra with
  | none => rfl
  | some hd =>
    simp only [raFalsy] at h
    cases hj : jsNumberInt hd with
    | none => simp [retryAfterDelay, hj]
    | some v =>
      rw [hj] at h
      simp only [decide_eq_true_eq] at h
      simp [retryAfterDelay, hj, h]

theorem retryAfterDelay_nonzero (hd : String) (k : Int) (n : Nat)
    (hk : jsNumberInt hd = some k) (hk0 : k ≠ 0) :
    retryAfterDelay (some hd) n = k := by
  simp [retryAfterDelay, hk, hk0]

/-- Claim C5 (amended): the two backoff schedules are separate — a thrown
timeout/network failure on attempt n is retried after exactly
`300 * 2^n` ms; a retryable HTTP status is retried after exactly
`500 * 2^n` ms except that a `Retry-After` header overrides it, and the
override applies only when `Number(header)` is a nonzero number (a header
that is absent, `0`, or non-numeric falls back to the `500 * 2^n`
schedule). -/
theorem backoff_schedules (parse : String → Option Json)
    (nm msg text method path : String) (maxR : Nat) (s : Nat)
    (hs : s ∈ RETRY_STATUS) (ra : Option String) (hra : raFalsy ra = true)
    (hdr : String) (k : Int) (hk : jsNumberInt hdr = some k)
    (hk0 : k ≠ 0) :
    (erpRun parse (fun _ => .thrown nm msg) method path maxR).delays =
      backoffs (fun n => (300 * 2 ^ n : Int)) 0 maxR ∧
    (erpRun parse (fun _ => .response s ra text) method path maxR).delays =
      backoffs (fun n => (500 * 2 ^ n : Int)) 0 maxR ∧
    (erpRun parse (fun _ => .response s (some hdr) text) method path
        maxR).delays = backoffs (fun _ => k) 0 maxR := by
  refine ⟨?_, ?_, ?_⟩
  · have h := erpGo_thrown_trace parse nm msg method path DEFAULT_TIMEOUT_MS
      maxR maxR 0 none (by omega)
    simp [erpRun, h]
  · have h := erpGo_retry_status_trace parse s ra text method path
      DEFAULT_TIMEOUT_MS maxR hs maxR 0 none (by omega)
    simp only [erpRun, h]
    exact backoffs_congr _ _ (fun n => retryAfterDelay_falsy ra n hra) 0 maxR
  · have h := erpGo_retry_status_trace parse s (some hdr) text method path
      DEFAULT_TIMEOUT_MS maxR hs maxR 0 none (by omega)
    simp only [erpRun, h]
    exact backoffs_congr _ _
      (fun n => retryAfterDelay_nonzero hdr k n hk hk0) 0 maxR

theorem backoff_schedules_witness :
    429 ∈ RETRY_STATUS ∧ raFalsy (some "abc") = true ∧
    jsNumberInt "250" = some 250 ∧ (250 : Int) ≠ 0 ∧
    ((erpRun (fun _ => none) (fun _ => .thrown "AbortError" "x") "GET"
        "/p" 2).delays = backoffs (fun n => (300 * 2 ^ n : Int)) 0 2 ∧
     (erpRun (fun _ => none) (fun _ => .response 429 (some "abc") "") "GET"
        "/p" 2).delays = backoffs (fun n => (500 * 2 ^ n : Int)) 0 2 ∧
     (erpRun (fun _ => none) (fun _ => .response 429 (some "250") "") "GET"
        "/p" 2).delays = backoffs (fun _ => (250 : Int)) 0 2) :=
  ⟨by decide, by decide, by decide, by decide,
   backoff_schedules (fun _ => none) "AbortError" "x" "" "GET" "/p" 2 429
     (by decide) (some "abc") (by decide) "250" 250 (by decide) (by decide)⟩

/-- Claim C6: a response body that does not parse as JSON (including the
empty body — `JSON.parse ""` throws) never crashes the call: `erp` wraps
the raw text as `{raw: text}` and classification continues on the HTTP
status as normal — a 2xx returns the wrapped payload, a non-2xx carries it
on the thrown status error. -/
theorem erp_wraps_unparsable_body (parse : String → Option Json)
    (text : String) (ra : Option String) (p : String)
    (hpt : parse text = none) :
    (erpRun parse (fun _ => .response 200 ra text) "GET" p 2).result =
      .ok (.obj [("raw", .str text)]) ∧
    (erpRun parse (fun _ => .response 400 ra text) "GET" p 2).calls = 3 ∧
    (erpRun parse (fun _ => .response 400 ra text) "GET" p 2).result =
      .error (statusErr "GET" p 400 (.obj [("raw", .str text)])) := by
  have hwrap : wrapBody parse text = .obj [("raw", .str text)] := by
    simp [wrapBody, hpt]
  have h400 := erpGo_fatal_status_trace parse 400 ra text "GET" p
    DEFAULT_TIMEOUT_MS 2 (by decide) (by decide) 2 0 none rfl
  have h200 := erpGo_ok parse (fun _ => .response 200 ra text) "GET" p
    DEFAULT_TIMEOUT_MS 2 2 0 none 200 ra text (by decide) rfl
  refine ⟨?_, ?_, ?_⟩
  · simp [erpRun, h200, hwrap, jsIsNull]
  · simp [erpRun, h400]
  · simp [erpRun, h400, hwrap]

theorem erp_wraps_unparsable_body_witness :
    (fun (_ : String) => (none : Option Json)) "" = none ∧
    ((erpRun (fun _ => none) (fun _ => .response 200 none "") "GET"
        "/api/v1/items" 2).result = .ok (.obj [("raw", .str "")]) ∧
     (erpRun (fun _ => none) (fun _ => .response 400 none "") "GET"
        "/api/v1/items" 2).calls = 3 ∧
     (erpRun (fun _ => none) (fun _ => .response 400 none "") "GET"
        "/api/v1/items" 2).result =
       .error (statusErr "GET" "/api/v1/items" 400
         (.obj [("raw", .str "")]))) :=
  ⟨rfl, erp_wraps_unparsable_body (fun _ => none) "" none "/api/v1/items" rfl⟩

/-- Claim C7: an item whose embedded tree-path field is not valid JSON
(e.g. `"not valid json"`) yields the empty breadcrumb `{array: [],
text: ""}` without throwing, and the item's other fields (nodeId,
nodeName, status, parentNodeId, raw, ...) are still populated — the rest
of the batch keeps mapping instead of aborting. -/
theorem breadcrumb_parse_failure_preserves_item
    (parse : String → Option Json) (s : String)
    (fs : List (String × Json)) (rest its : List Json)
    (hp : parse s = none) (htp : lookupF fs "treePath" = some (.str s))
    (hrest : mapItems parse rest = .ok its) :
    parseBreadcrumb parse (some (.str s)) = ⟨[], ""⟩ ∧
    mapItem parse (.obj fs) = .ok (itemOf (.obj fs) ⟨[], ""⟩) ∧
    mapItems parse (.obj fs :: rest) =
      .ok (itemOf (.obj fs) ⟨[], ""⟩ :: its) := by
  have hbc : parseBreadcrumb parse (some (.str s)) = ⟨[], ""⟩ := by
    by_cases hs : s = ""
    · subst hs
      simp [parseBreadcrumb, jsTruthy]
    · simp [parseBreadcrumb, jsTruthy, hs, jsStringOf, jsAtomStr, hp]
  have hitem : mapItem parse (.obj fs) = .ok (itemOf (.obj fs) ⟨[], ""⟩) := by
    simp [mapItem, jsGetOpt, htp, hbc]
  refine ⟨hbc, hitem, ?_⟩
  simp [mapItems, hitem, hrest]

theorem breadcrumb_parse_failure_preserves_item_witness :
    (fun (_ : String) => (none : Option Json)) "not valid json" = none ∧
    lookupF [("recCode", Json.str "N1"), ("nodeName", Json.str "Node"),
             ("treePath", Json.str "not valid json"),
             ("status", Json.str "Active")] "treePath" =
      some (.str "not valid json") ∧
    (parseBreadcrumb (fun _ => none) (some (.str "not valid json")) =
       ⟨[], ""⟩ ∧
     mapItem (fun _ => none)
         (.obj [("recCode", Json.str "N1"), ("nodeName", Json.str "Node"),
                ("treePath", Json.str "not valid json"),
                ("status", Json.str "Active")]) =
       .ok (itemOf
         (.obj [("recCode", Json.str "N1"), ("nodeName", Json.str "Node"),
                ("treePath", Json.str "not valid json"),
                ("status", Json.str "Active")]) ⟨[], ""⟩) ∧
     mapItems (fun _ => none)
         [.obj [("recCode", Json.str "N1"), ("nodeName", Json.str "Node"),
                ("treePath", Json.str "not valid json"),
                ("status", Json.str "Active")]] =
       .ok [itemOf
         (.obj [("recCode", Json.str "N1"), ("nodeName", Json.str "Node"),
                ("treePath", Json.str "not valid json"),
                ("status", Json.str "Active")]) ⟨[], ""⟩]) :=
  ⟨rfl, rfl,
   breadcrumb_parse_failure_preserves_item (fun _ => none) "not valid json"
     [("recCode", Json.str "N1"), ("nodeName", Json.str "Node"),
      ("treePath", Json.str "not valid json"), ("status", Json.str "Active")]
     [] [] rfl rfl rfl⟩

theorem coal_nullish (o : Option Json) (d : Json) (h : isNullish o = true) :
    coal o d = d := by
  cases o with
  | none => rfl
  | some v => cases v <;> simp_all [isNullish, coal]

theorem jnav_chain (j : Json) (k : String) (ks : List String) :
    jnav j (k :: ks) =
      (match jnav j [k] with
       | some v => jnav v ks
       | none => none) := by
  cases j <;> simp [jnav]
  case obj fs => cases lookupF fs k <;> simp [jnav]

/-- Claim C8 (amended): every page-info field defaults independently when
its *own* source location is absent or null — content to `[]`, page to 0,
size to the item count, total to the item count, totalPages to 1.  A
payload missing `pageable` therefore defaults page and size; total and
totalPages are governed by `data.totalElements` / `data.totalPages`,
which are read outside `pageable`, so totalPages is 1 only when
`data.totalPages` is itself absent. -/
theorem pageinfo_fields_default_independently (raw : Json) (cnt : Nat) :
    (isNullish (jnav raw ["data", "content"]) = true →
       extractContent raw = .arr []) ∧
    (isNullish (jnav raw ["data", "pageable", "pageNumber"]) = true →
       getF (buildPageInfo raw cnt) "page" = some (.num 0)) ∧
    (isNullish (jnav raw ["data", "pageable", "pageSize"]) = true →
       getF (buildPageInfo raw cnt) "size" = some (.num (cnt : Int))) ∧
    (isNullish (jnav raw ["data", "totalElements"]) = true →
       getF (buildPageInfo raw cnt) "total" = some (.num (cnt : Int))) ∧
    (isNullish (jnav raw ["data", "totalPages"]) = true →
       getF (buildPageInfo raw cnt) "totalPages" = some (.num 1)) ∧
    (jnav raw ["data", "pageable"] = none →
       getF (buildPageInfo raw cnt) "page" = some (.num 0) ∧
       getF (buildPageInfo raw cnt) "size" = some (.num (cnt : Int))) := by
  refine ⟨?_, ?_, ?_, ?_, ?_, ?_⟩
  · intro h
    simp [extractContent, coal_nullish _ _ h]
  · intro h
    simp [buildPageInfo, getF, lookupF, coal_nullish _ _ h]
  · intro h
    simp [buildPageInfo, getF, lookupF, coal_nullish _ _ h]
  · intro h
    simp [buildPageInfo, getF, lookupF, coal_nullish _ _ h]
  · intro h
    simp [buildPageInfo, getF, lookupF, coal_nullish _ _ h]
  · intro h
    have hsub : ∀ k2 : String,
        jnav raw ["data", "pageable", k2] = none := by
      intro k2
      rw [jnav_chain raw "data" ["pageable", k2]]
      rw [jnav_chain raw "data" ["pageable"]] at h
      cases hd : jnav raw ["data"] with
      | none => simp
      | some v =>
        rw [hd] at h
        simp only [] at h ⊢
        rw [jnav_chain v "pageable" [k2], h]
    constructor
    · have h1 : isNullish (jnav raw ["data", "pageable", "pageNumber"]) = true := by
        rw [hsub "pageNumber"]
        rfl
      simp [buildPageInfo, getF, lookupF, coal_nullish _ _ h1]
    · have h1 : isNullish (jnav raw ["data", "pageable", "pageSize"]) = true := by
        rw [hsub "pageSize"]
        rfl
      simp [buildPageInfo, getF, lookupF, coal_nullish _ _ h1]

theorem pageinfo_fields_default_independently_witness :
    extractContent (Json.obj [("data", Json.obj [])]) = .arr [] ∧
    getF (buildPageInfo (Json.obj [("data", Json.obj [])]) 5) "page" =
      some (.num 0) ∧
    getF (buildPageInfo (Json.obj [("data", Json.obj [])]) 5) "size" =
      some (.num 5) ∧
    getF (buildPageInfo (Json.obj [("data", Json.obj [])]) 5) "total" =
      some (.num 5) ∧
    getF (buildPageInfo (Json.obj [("data", Json.obj [])]) 5) "totalPages" =
      some (.num 1) := by
  have h := pageinfo_fields_default_independently
    (Json.obj [("data", Json.obj [])]) 5
  exact ⟨h.1 rfl, h.2.1 rfl, h.2.2.1 rfl, h.2.2.2.1 rfl, h.2.2.2.2.1 rfl⟩

/-- Claim C8 counterexample: a payload missing `pageable` entirely but
carrying `data.totalPages = 7` normalizes to `totalPages = 7`, not the 1
the claim requires — totalPages is read from `data.totalPages`,
independently of `pageable`. -/
theorem pageinfo_missing_pageable_counterexample :
    jnav (Json.obj [("data", Json.obj [("content", Json.arr []),
        ("totalPages", Json.num 7)])]) ["data", "pageable"] = none ∧
    getF (buildPageInfo (Json.obj [("data", Json.obj [("content", Json.arr []),
        ("totalPages", Json.num 7)])]) 0) "page" = some (.num 0) ∧
    getF (buildPageInfo (Json.obj [("data", Json.obj [("content", Json.arr []),
        ("totalPages", Json.num 7)])]) 0) "totalPages" = some (.num 7) ∧
    (7 : Int) ≠ 1 :=
  ⟨rfl, rfl, rfl, by decide⟩
